import Mathlib

/-!
Shallow embedding of the `tknf/snowflake` Snowflake-ID library
(`src/index.ts`, `src/node.ts`, `src/browser.ts`) and proofs about it.

JavaScript `number` and `BigInt` values occurring in the library are embedded
as `Int` (every value the library manipulates is an integer well inside the
exact range of both JS types); the per-generator `sequence` counter, which is
provably non-negative, is embedded as `Nat`.  A JS object with optional fields
is embedded with `Option (Option Int)` fields: `none` models an absent key,
`some none` a key present with value `undefined`, and `some (some v)` a key
holding the number `v` (the distinction matters for object-spread merging,
which copies keys whose value is `undefined`).  The wall clock (`Date.now()`)
is embedded as a list of successive readings consumed by the generator; a call
that exhausts the list models an execution in which the spin-wait loop never
observes a reading past `lastTimestamp` and therefore never returns.
-/

namespace Snowflake

/-- Default epoch 2020-01-01T00:00:00.000Z (`DEFAULT_EPOCH` in `src/index.ts`). -/
def DEFAULT_EPOCH : Int := 1577836800000

/-- Bit length of the timestamp-offset field (`TIMESTAMP_BITS`). -/
def TIMESTAMP_BITS : Nat := 41

/-- Bit length of the datacenter-id field (`DATACENTER_BITS`). -/
def DATACENTER_BITS : Nat := 5

/-- Bit length of the worker-id field (`WORKER_BITS`). -/
def WORKER_BITS : Nat := 5

/-- Bit length of the sequence field (`SEQUENCE_BITS`). -/
def SEQUENCE_BITS : Nat := 12

/-- Maximum datacenter id, `(1 << DATACENTER_BITS) - 1 = 31`. -/
def MAX_DATACENTER_ID : Nat := (1 <<< DATACENTER_BITS) - 1

/-- Maximum worker id, `(1 << WORKER_BITS) - 1 = 31`. -/
def MAX_WORKER_ID : Nat := (1 <<< WORKER_BITS) - 1

/-- Maximum sequence value, `(1 << SEQUENCE_BITS) - 1 = 4095`. -/
def MAX_SEQUENCE : Nat := (1 <<< SEQUENCE_BITS) - 1

/-- Bit position of the sequence field (`SEQUENCE_SHIFT = 0`). -/
def SEQUENCE_SHIFT : Nat := 0

/-- Bit position of the worker-id field (`WORKER_SHIFT = SEQUENCE_BITS = 12`). -/
def WORKER_SHIFT : Nat := SEQUENCE_BITS

/-- Bit position of the datacenter-id field
(`DATACENTER_SHIFT = SEQUENCE_BITS + WORKER_BITS = 17`). -/
def DATACENTER_SHIFT : Nat := SEQUENCE_BITS + WORKER_BITS

/-- Bit position of the timestamp field
(`TIMESTAMP_SHIFT = SEQUENCE_BITS + WORKER_BITS + DATACENTER_BITS = 22`). -/
def TIMESTAMP_SHIFT : Nat := SEQUENCE_BITS + WORKER_BITS + DATACENTER_BITS

/-- Packing of the four fields into one BigInt, as computed inside the
generator returned by `createSnowflake`:
`(BigInt(timestampOffset) << BigInt(TIMESTAMP_SHIFT)) |
 (BigInt(datacenterId) << BigInt(DATACENTER_SHIFT)) |
 (BigInt(workerId) << BigInt(WORKER_SHIFT)) | BigInt(sequence)`.
JS `BigInt` shift and or are embedded as the two's-complement `Int` shift and
`Int.lor`. -/
def encodeId (timestampOffset datacenterId workerId sequence : Int) : Int :=
  Int.lor
    (Int.lor
      (Int.lor (timestampOffset <<< (TIMESTAMP_SHIFT : Int))
        (datacenterId <<< (DATACENTER_SHIFT : Int)))
      (workerId <<< (WORKER_SHIFT : Int)))
    sequence

/-- Components obtained by decoding an id (`parseSnowflakeId`'s return value);
the `date` field embeds `new Date(timestamp)` as its millisecond value. -/
structure SnowflakeComponents where
  timestamp : Int
  datacenterId : Int
  workerId : Int
  sequence : Int
  date : Int
  deriving DecidableEq

/-- Field extraction performed by `parseSnowflakeId` once the input string has
been converted to a BigInt:
`timestamp = Number(id >> TIMESTAMP_SHIFT) + epoch`,
`datacenterId = Number((id >> DATACENTER_SHIFT) & MAX_DATACENTER_ID)`,
`workerId = Number((id >> WORKER_SHIFT) & MAX_WORKER_ID)`,
`sequence = Number(id & MAX_SEQUENCE)` (all these values are far below 2^53,
so JS `Number` conversion is exact and is embedded as the identity). -/
def decodeComponents (idBigInt : Int) (epoch : Int) : SnowflakeComponents :=
  { timestamp := (idBigInt >>> (TIMESTAMP_SHIFT : Int)) + epoch
    datacenterId := Int.land (idBigInt >>> (DATACENTER_SHIFT : Int)) (MAX_DATACENTER_ID : Int)
    workerId := Int.land (idBigInt >>> (WORKER_SHIFT : Int)) (MAX_WORKER_ID : Int)
    sequence := Int.land idBigInt (MAX_SEQUENCE : Int)
    date := (idBigInt >>> (TIMESTAMP_SHIFT : Int)) + epoch }

/-! Generator state machine (`createSnowflake` and the closure it returns). -/

/-- Errors surfaced by the library.  The source throws plain `Error` values;
the constructor records which throw site produced it, and the message.
`clockExhausted` is a modeling artifact of embedding `Date.now()` as a finite
list of readings: it marks a call whose spin-wait loop consumed every
remaining reading without seeing one past `lastTimestamp`, i.e. an execution
of the real code that has not returned (it is not an error the code raises). -/
inductive SnowflakeError where
  | configurationError (message : String)
  | clockRegressionError (message : String)
  | clockExhausted
  deriving DecidableEq

/-- Mutable closure state of one generator: `let lastTimestamp = -1` and
`let sequence = 0`.  The `sequence` variable only ever holds non-negative
values (`0` or `(sequence + 1) & MAX_SEQUENCE`), so it is embedded as `Nat`. -/
structure GenState where
  lastTimestamp : Int
  sequence : Nat
  deriving DecidableEq

/-- A `SnowflakeConfig` object: three optional numeric fields.  `none` is an
absent key, `some none` a key present with value `undefined`, `some (some v)`
a key holding `v`. -/
structure SnowflakeConfig where
  epoch : Option (Option Int)
  datacenterId : Option (Option Int)
  workerId : Option (Option Int)
  deriving DecidableEq

/-- JS destructuring with a default value, as in
`const { epoch = DEFAULT_EPOCH, datacenterId = 0, workerId = 0 } = config`:
the default applies when the key is absent or holds `undefined`. -/
def defaulted (field : Option (Option Int)) (dflt : Int) : Int :=
  match field with
  | some (some v) => v
  | _ => dflt

/-- A constructed generator: the configuration captured by the closure
returned by `createSnowflake`, together with its mutable state. -/
structure Generator where
  epoch : Int
  datacenterId : Int
  workerId : Int
  state : GenState
  deriving DecidableEq

/-- Validation and initialization performed by `createSnowflake(config)`:
destructure with defaults, reject out-of-range datacenter and worker ids
(the thrown `Error` messages interpolate the maxima), then capture
`lastTimestamp = -1` and `sequence = 0`. -/
def createSnowflake (config : SnowflakeConfig) : Except SnowflakeError Generator :=
  let epoch := defaulted config.epoch DEFAULT_EPOCH
  let datacenterId := defaulted config.datacenterId 0
  let workerId := defaulted config.workerId 0
  if datacenterId < 0 ∨ datacenterId > (MAX_DATACENTER_ID : Int) then
    .error (.configurationError
      ("Datacenter ID must be between 0 and " ++ toString MAX_DATACENTER_ID))
  else if workerId < 0 ∨ workerId > (MAX_WORKER_ID : Int) then
    .error (.configurationError
      ("Worker ID must be between 0 and " ++ toString MAX_WORKER_ID))
  else
    .ok { epoch := epoch, datacenterId := datacenterId, workerId := workerId,
          state := { lastTimestamp := -1, sequence := 0 } }

/-- Busy-wait loop `while (timestamp <= lastTimestamp) timestamp = Date.now()`:
consume readings until one exceeds `lastTimestamp` (the loop is always entered
with `timestamp = lastTimestamp`, so it always re-reads at least once);
`none` when the finite trace runs out first. -/
def spinWait (lastTimestamp : Int) : List Int → Option (Int × List Int)
  | [] => none
  | timestamp :: rest =>
    if timestamp ≤ lastTimestamp then spinWait lastTimestamp rest
    else some (timestamp, rest)

/-- One call of the closure returned by `createSnowflake`, reading the clock
from the head of `clock` (and, on sequence exhaustion, from further readings).
Returns the BigInt id, the updated closure state, and the unconsumed
readings. -/
def snowflakeCall (epoch datacenterId workerId : Int) (st : GenState) :
    List Int → Except SnowflakeError (Int × GenState × List Int)
  | [] => .error .clockExhausted
  | timestamp :: rest =>
    if timestamp < st.lastTimestamp then
      .error (.clockRegressionError "Clock moved backwards. Refusing to generate id")
    else if timestamp = st.lastTimestamp then
      let sequence := (st.sequence + 1) &&& MAX_SEQUENCE
      if sequence = 0 then
        match spinWait st.lastTimestamp rest with
        | none => .error .clockExhausted
        | some (t2, rest2) =>
          .ok (encodeId (t2 - epoch) datacenterId workerId (sequence : Int),
            { lastTimestamp := t2, sequence := sequence }, rest2)
      else
        .ok (encodeId (timestamp - epoch) datacenterId workerId (sequence : Int),
          { lastTimestamp := timestamp, sequence := sequence }, rest)
    else
      .ok (encodeId (timestamp - epoch) datacenterId workerId ((0 : Nat) : Int),
        { lastTimestamp := timestamp, sequence := 0 }, rest)

/-- A sequence of `n` consecutive calls on one generator, threading the state
and the clock trace; fails as soon as one call fails, otherwise returns the
ids in emission order. -/
def snowflakeRun (epoch datacenterId workerId : Int) :
    Nat → GenState → List Int → Except SnowflakeError (List Int × GenState × List Int)
  | 0, st, clock => .ok ([], st, clock)
  | n + 1, st, clock =>
    match snowflakeCall epoch datacenterId workerId st clock with
    | .error e => .error e
    | .ok (id, st2, rest) =>
      match snowflakeRun epoch datacenterId workerId n st2 rest with
      | .error e => .error e
      | .ok (ids, st3, rest2) => .ok (id :: ids, st3, rest2)

/-- One-shot `generateSnowflakeId(config)`: construct a fresh generator and
invoke it once; the id is returned as its decimal string (`id.toString()`). -/
def generateSnowflakeId (config : SnowflakeConfig) (clock : List Int) :
    Except SnowflakeError String :=
  match createSnowflake config with
  | .error e => .error e
  | .ok g =>
    match snowflakeCall g.epoch g.datacenterId g.workerId g.state clock with
    | .error e => .error e
    | .ok (id, _, _) => .ok (toString id)

/-- Packed value of a state, seen through `encodeId`'s arithmetic form. -/
def idValue (epoch datacenterId workerId : Int) (st : GenState) : Int :=
  (st.lastTimestamp - epoch) * 2 ^ 22 + datacenterId * 2 ^ 17 + workerId * 2 ^ 12
    + (st.sequence : Int)

/-! String-to-number host conversions used by the decode API
(`BigInt(id)` in `parseSnowflakeId`/`getSnowflakeTimestamp`,
`Number.parseInt(value, 10)` in the browser adapter). -/

/-- Whitespace recognized by the JS string trimming performed before numeric
conversion (modeled for the ASCII whitespace characters). -/
def isJsWhitespace (c : Char) : Bool := c = ' ' || c = '\t' || c = '\n' || c = '\r'

/-- Whitespace trim applied by the JS conversions, over the character list. -/
def trimChars (cs : List Char) : List Char :=
  ((cs.dropWhile isJsWhitespace).reverse.dropWhile isJsWhitespace).reverse

/-- Decimal digit predicate. -/
def isDecDigit (c : Char) : Bool := '0' ≤ c && c ≤ '9'

/-- Hexadecimal digit predicate. -/
def isHexDigit (c : Char) : Bool :=
  isDecDigit c || ('a' ≤ c && c ≤ 'f') || ('A' ≤ c && c ≤ 'F')

/-- Octal digit predicate. -/
def isOctDigit (c : Char) : Bool := '0' ≤ c && c ≤ '7'

/-- Binary digit predicate. -/
def isBinDigit (c : Char) : Bool := c = '0' || c = '1'

/-- Value of a decimal (or octal or binary) digit character. -/
def decDigitVal (c : Char) : Nat := c.toNat - '0'.toNat

/-- Value of a hexadecimal digit character. -/
def hexDigitVal (c : Char) : Nat :=
  if isDecDigit c then c.toNat - '0'.toNat
  else if 'a' ≤ c && c ≤ 'f' then c.toNat - 'a'.toNat + 10
  else c.toNat - 'A'.toNat + 10

/-- Value of a non-empty all-digit character list in the given base; `none`
when the list is empty or contains a non-digit. -/
def digitsVal (base : Nat) (test : Char → Bool) (valOf : Char → Nat)
    (cs : List Char) : Option Nat :=
  if cs.isEmpty then none
  else if cs.all test then some (cs.foldl (fun acc c => acc * base + valOf c) 0)
  else none

/-- Model of the ECMAScript StringToBigInt conversion performed by
`BigInt(id)`: the whitespace-trimmed empty string yields 0; otherwise the
whole string must be an optional sign followed by decimal digits, or an
unsigned 0x/0o/0b radix numeral; any other string makes `BigInt` throw a
`SyntaxError`, modeled as `none`. -/
def jsBigIntOfString (s : String) : Option Int :=
  match trimChars s.toList with
  | [] => some 0
  | '+' :: cs => (digitsVal 10 isDecDigit decDigitVal cs).map fun n => (n : Int)
  | '-' :: cs => (digitsVal 10 isDecDigit decDigitVal cs).map fun n => -(n : Int)
  | '0' :: 'x' :: cs => (digitsVal 16 isHexDigit hexDigitVal cs).map fun n => (n : Int)
  | '0' :: 'X' :: cs => (digitsVal 16 isHexDigit hexDigitVal cs).map fun n => (n : Int)
  | '0' :: 'o' :: cs => (digitsVal 8 isOctDigit decDigitVal cs).map fun n => (n : Int)
  | '0' :: 'O' :: cs => (digitsVal 8 isOctDigit decDigitVal cs).map fun n => (n : Int)
  | '0' :: 'b' :: cs => (digitsVal 2 isBinDigit decDigitVal cs).map fun n => (n : Int)
  | '0' :: 'B' :: cs => (digitsVal 2 isBinDigit decDigitVal cs).map fun n => (n : Int)
  | cs => (digitsVal 10 isDecDigit decDigitVal cs).map fun n => (n : Int)

/-- Model of `parseSnowflakeId(id, epoch)`: convert the string with `BigInt`
(whose `SyntaxError` on non-numeric input propagates to the caller, modeled
as `none`), then extract the components. -/
def parseSnowflakeId (id : String) (epoch : Int) : Option SnowflakeComponents :=
  match jsBigIntOfString id with
  | none => none
  | some idBigInt => some (decodeComponents idBigInt epoch)

/-- Model of `getSnowflakeTimestamp(id, epoch)`:
`Number(BigInt(id) >> BigInt(TIMESTAMP_SHIFT)) + epoch`, with `BigInt`'s
`SyntaxError` propagating as `none`. -/
def getSnowflakeTimestamp (id : String) (epoch : Int) : Option Int :=
  match jsBigIntOfString id with
  | none => none
  | some idBigInt => some ((idBigInt >>> (TIMESTAMP_SHIFT : Int)) + epoch)

/-! Browser storage adapter (`src/browser.ts`). -/

/-- Model of `Number.parseInt(s, 10)`: after trimming, an optional sign
followed by the longest leading run of decimal digits (at least one);
`none` models `NaN`. -/
def leadingDecVal (cs : List Char) : Option Nat :=
  let ds := cs.takeWhile isDecDigit
  if ds.isEmpty then none
  else some (ds.foldl (fun acc c => acc * 10 + decDigitVal c) 0)

/-- Signed wrapper of `leadingDecVal` implementing `Number.parseInt(s, 10)`. -/
def jsParseInt (s : String) : Option Int :=
  match trimChars s.toList with
  | '+' :: cs => (leadingDecVal cs).map fun n => (n : Int)
  | '-' :: cs => (leadingDecVal cs).map fun n => -(n : Int)
  | cs => (leadingDecVal cs).map fun n => (n : Int)

/-- Model of `parseLocalStorageInt(key, min, max)`.  `storage = none` models
`typeof localStorage === "undefined"`; otherwise the function is the
`getItem` behavior, with `none` for a `null` result.  A missing or empty
value, a NaN parse, or an out-of-range value all yield `undefined`. -/
def parseLocalStorageInt (storage : Option (String → Option String)) (key : String)
    (min max : Int) : Option Int :=
  match storage with
  | none => none
  | some store =>
    match store key with
    | none => none
    | some value =>
      if value = "" then none
      else
        match jsParseInt value with
        | none => none
        | some parsed => if parsed < min ∨ parsed > max then none else some parsed

/-- Model of `loadConfigFromStorage()`.  When localStorage is unavailable the
returned object has no keys at all.  Otherwise the `epoch` key is set only
when the stored string parses; the `datacenterId` and `workerId` keys are
always assigned (`config.datacenterId = parseLocalStorageInt(...)`), so they
are present even when their value is `undefined`. -/
def loadConfigFromStorage (storage : Option (String → Option String)) : SnowflakeConfig :=
  match storage with
  | none => { epoch := none, datacenterId := none, workerId := none }
  | some store =>
    { epoch :=
        match store "snowflake.epoch" with
        | none => none
        | some epochStr =>
          if epochStr = "" then none
          else
            match jsParseInt epochStr with
            | none => none
            | some epoch => some (some epoch)
      datacenterId := some (parseLocalStorageInt storage "snowflake.datacenterId" 0 31)
      workerId := some (parseLocalStorageInt storage "snowflake.workerId" 0 31) }

/-- Model of `generateBrowserConfig()`: always supplies both datacenterId and
workerId, with values obtained by hashing browser characteristics (timezone,
user agent, screen, ...); the two hash results are abstracted as the
parameters `fpDc` and `fpW`. -/
def generateBrowserConfig (fpDc fpW : Int) : SnowflakeConfig :=
  { epoch := none, datacenterId := some (some fpDc), workerId := some (some fpW) }

/-- JS object-spread on one key: in `{ ...a, ...b }` a key present in `b`
(even one holding `undefined`) overrides `a`'s key. -/
def mergeField (a b : Option (Option Int)) : Option (Option Int) :=
  match b with
  | none => a
  | some v => some v

/-- JS object-spread merge `{ ...a, ...b }` of two config objects. -/
def spreadMerge (a b : SnowflakeConfig) : SnowflakeConfig :=
  { epoch := mergeField a.epoch b.epoch
    datacenterId := mergeField a.datacenterId b.datacenterId
    workerId := mergeField a.workerId b.workerId }

/-- Model of `createSnowflakeFromStorage(overrides)`:
`{ ...generateBrowserConfig(), ...loadConfigFromStorage(), ...overrides }`
handed to `createSnowflake` (the source comment documents the intent
`overrides > localStorage > browser-generated > defaults`). -/
def createSnowflakeFromStorage (storage : Option (String → Option String))
    (overrides : SnowflakeConfig) (fpDc fpW : Int) : Except SnowflakeError Generator :=
  let storageConfig := loadConfigFromStorage storage
  let browserConfig := generateBrowserConfig fpDc fpW
  let finalConfig := spreadMerge (spreadMerge browserConfig storageConfig) overrides
  createSnowflake finalConfig

theorem MAX_DATACENTER_ID_eq : MAX_DATACENTER_ID = 31 := rfl

theorem MAX_WORKER_ID_eq : MAX_WORKER_ID = 31 := rfl

theorem MAX_SEQUENCE_eq : MAX_SEQUENCE = 4095 := rfl

theorem WORKER_SHIFT_eq : WORKER_SHIFT = 12 := rfl

theorem DATACENTER_SHIFT_eq : DATACENTER_SHIFT = 17 := rfl

theorem TIMESTAMP_SHIFT_eq : TIMESTAMP_SHIFT = 22 := rfl

/-! Arithmetic characterization of the bit-level codec. -/

theorem int_lor_coe (a b : Nat) : Int.lor (a : Int) (b : Int) = ((a ||| b : Nat) : Int) := rfl

theorem int_lor_negSucc_coe (m b : Nat) :
    Int.lor (Int.negSucc m) (b : Int) = Int.negSucc (Nat.ldiff m b) := rfl

theorem ldiff_full_low {b n : Nat} (hb : b < 2 ^ n) (a : Nat) :
    Nat.ldiff (2 ^ n * a + (2 ^ n - 1)) b = 2 ^ n * a + (2 ^ n - 1 - b) := by
  have hpos : 0 < 2 ^ n := Nat.pos_pow_of_pos n (by omega)
  have h1 : 2 ^ n - 1 < 2 ^ n := by omega
  have h2 : 2 ^ n - 1 - b < 2 ^ n := by omega
  apply Nat.eq_of_testBit_eq
  intro j
  rw [Nat.testBit_ldiff, Nat.testBit_mul_pow_two_add _ h1, Nat.testBit_mul_pow_two_add _ h2]
  by_cases hj : j < n
  · rw [if_pos hj, if_pos hj, Nat.testBit_two_pow_sub_one,
      show 2 ^ n - 1 - b = 2 ^ n - (b + 1) by omega, Nat.testBit_two_pow_sub_succ hb]
  · have hbj : b < 2 ^ j :=
      lt_of_lt_of_le hb (Nat.pow_le_pow_right (by omega) (le_of_not_lt hj))
    rw [if_neg hj, if_neg hj, Nat.testBit_lt_two_pow hbj]
    simp

theorem int_lor_mul_pow {n : Nat} (Y : Int) {b : Nat} (hb : b < 2 ^ n) :
    Int.lor (2 ^ n * Y) (b : Int) = 2 ^ n * Y + (b : Int) := by
  have hpos : 0 < 2 ^ n := Nat.pos_pow_of_pos n (by omega)
  cases Y with
  | ofNat y =>
    have h1 : (2 ^ n * Int.ofNat y) = ((2 ^ n * y : Nat) : Int) := by
      rw [Int.ofNat_eq_natCast]
      push_cast
      ring
    rw [h1, int_lor_coe, ← Nat.mul_add_lt_is_or hb y]
    push_cast
    ring
  | negSucc m =>
    have h1 : (2 ^ n * Int.negSucc m) = Int.negSucc (2 ^ n * m + (2 ^ n - 1)) := by
      rw [Int.negSucc_eq, Int.negSucc_eq]
      have h2 : ((2 ^ n * m + (2 ^ n - 1) : Nat) : Int) = 2 ^ n * m + 2 ^ n - 1 := by
        push_cast [Nat.cast_sub (show 1 ≤ 2 ^ n by omega)]
        ring
      rw [h2]
      ring
    rw [h1, int_lor_negSucc_coe, ldiff_full_low hb, Int.negSucc_eq, Int.negSucc_eq]
    have h3 : ((2 ^ n * m + (2 ^ n - 1 - b) : Nat) : Int) = 2 ^ n * m + 2 ^ n - 1 - b := by
      push_cast [Nat.cast_sub (show b ≤ 2 ^ n - 1 by omega),
        Nat.cast_sub (show 1 ≤ 2 ^ n by omega)]
      ring
    rw [h3]
    push_cast [Nat.cast_sub (show 1 ≤ 2 ^ n by omega)]
    ring

theorem encodeId_eq {datacenterId workerId sequence : Int} (timestampOffset : Int)
    (hd0 : 0 ≤ datacenterId) (hd : datacenterId ≤ 31)
    (hw0 : 0 ≤ workerId) (hw : workerId ≤ 31)
    (hs0 : 0 ≤ sequence) (hs : sequence ≤ 4095) :
    encodeId timestampOffset datacenterId workerId sequence
      = timestampOffset * 2 ^ 22 + datacenterId * 2 ^ 17 + workerId * 2 ^ 12 + sequence := by
  obtain ⟨dn, rfl⟩ := Int.eq_ofNat_of_zero_le hd0
  obtain ⟨wn, rfl⟩ := Int.eq_ofNat_of_zero_le hw0
  obtain ⟨sn, rfl⟩ := Int.eq_ofNat_of_zero_le hs0
  have hdn : dn < 32 := by exact_mod_cast Int.lt_add_one_of_le hd
  have hwn : wn < 32 := by exact_mod_cast Int.lt_add_one_of_le hw
  have hsn : sn < 4096 := by exact_mod_cast Int.lt_add_one_of_le hs
  have hB : dn * 2 ^ 17 < 2 ^ 22 := by
    have : dn * 2 ^ 17 ≤ 31 * 2 ^ 17 := Nat.mul_le_mul_right _ (by omega)
    omega
  have hC : wn * 2 ^ 12 < 2 ^ 17 := by
    have : wn * 2 ^ 12 ≤ 31 * 2 ^ 12 := Nat.mul_le_mul_right _ (by omega)
    omega
  unfold encodeId
  rw [Int.shiftLeft_eq_mul_pow, Int.shiftLeft_eq_mul_pow, Int.shiftLeft_eq_mul_pow,
    TIMESTAMP_SHIFT_eq, DATACENTER_SHIFT_eq, WORKER_SHIFT_eq]
  have e1 : timestampOffset * ((2 ^ 22 : Nat) : Int) = 2 ^ 22 * timestampOffset := by
    push_cast; ring
  have e2 : (dn : Int) * ((2 ^ 17 : Nat) : Int) = ((dn * 2 ^ 17 : Nat) : Int) := by
    push_cast; ring
  have e3 : (wn : Int) * ((2 ^ 12 : Nat) : Int) = ((wn * 2 ^ 12 : Nat) : Int) := by
    push_cast; ring
  rw [e1, e2, e3, int_lor_mul_pow timestampOffset hB]
  have e4 : 2 ^ 22 * timestampOffset + ((dn * 2 ^ 17 : Nat) : Int)
      = 2 ^ 17 * (2 ^ 5 * timestampOffset + (dn : Int)) := by
    push_cast; ring
  rw [e4, int_lor_mul_pow _ hC]
  have e5 : 2 ^ 17 * (2 ^ 5 * timestampOffset + (dn : Int)) + ((wn * 2 ^ 12 : Nat) : Int)
      = 2 ^ 12 * (2 ^ 10 * timestampOffset + 2 ^ 5 * (dn : Int) + (wn : Int)) := by
    push_cast; ring
  rw [e5, int_lor_mul_pow _ hsn]
  push_cast
  ring

theorem int_land_coe (a b : Nat) :
    Int.land (a : Int) (b : Int) = ((a &&& b : Nat) : Int) := rfl

theorem nat_fields_of_pack {t d w s : Nat} (hd : d < 32) (hw : w < 32) (hs : s < 4096) :
    (t * 2 ^ 22 + d * 2 ^ 17 + w * 2 ^ 12 + s) >>> 22 = t
    ∧ ((t * 2 ^ 22 + d * 2 ^ 17 + w * 2 ^ 12 + s) >>> 17) &&& 31 = d
    ∧ ((t * 2 ^ 22 + d * 2 ^ 17 + w * 2 ^ 12 + s) >>> 12) &&& 31 = w
    ∧ (t * 2 ^ 22 + d * 2 ^ 17 + w * 2 ^ 12 + s) &&& 4095 = s := by
  rw [Nat.shiftRight_eq_div_pow, Nat.shiftRight_eq_div_pow, Nat.shiftRight_eq_div_pow,
    show (31 : Nat) = 2 ^ 5 - 1 by omega, show (4095 : Nat) = 2 ^ 12 - 1 by omega,
    Nat.and_pow_two_sub_one_eq_mod, Nat.and_pow_two_sub_one_eq_mod,
    Nat.and_pow_two_sub_one_eq_mod]
  refine ⟨?_, ?_, ?_, ?_⟩ <;> omega

/-- C1: for every epoch and every valid field tuple (datacenterId and workerId
in [0,31], sequence in [0,4095], timestampOffset a non-negative 41-bit value),
decoding the encoded identifier with the same epoch recovers the original
datacenterId, workerId and sequence, and yields a timestamp equal to
`epoch + timestampOffset` (encoding places timestampOffset at bit 22,
datacenterId at bit 17, workerId at bit 12, sequence at bit 0; decoding
inverts with the shifts and masks of `parseSnowflakeId`). -/
theorem decode_encode_roundTrip
    (epoch timestampOffset datacenterId workerId sequence : Int)
    (ht0 : 0 ≤ timestampOffset) (ht : timestampOffset < 2 ^ 41)
    (hd0 : 0 ≤ datacenterId) (hd : datacenterId ≤ 31)
    (hw0 : 0 ≤ workerId) (hw : workerId ≤ 31)
    (hs0 : 0 ≤ sequence) (hs : sequence ≤ 4095) :
    decodeComponents (encodeId timestampOffset datacenterId workerId sequence) epoch
      = { timestamp := epoch + timestampOffset
          datacenterId := datacenterId
          workerId := workerId
          sequence := sequence
          date := epoch + timestampOffset } := by
  have henc := encodeId_eq timestampOffset hd0 hd hw0 hw hs0 hs
  obtain ⟨tn, rfl⟩ := Int.eq_ofNat_of_zero_le ht0
  obtain ⟨dn, rfl⟩ := Int.eq_ofNat_of_zero_le hd0
  obtain ⟨wn, rfl⟩ := Int.eq_ofNat_of_zero_le hw0
  obtain ⟨sn, rfl⟩ := Int.eq_ofNat_of_zero_le hs0
  have hdn : dn < 32 := by exact_mod_cast Int.lt_add_one_of_le hd
  have hwn : wn < 32 := by exact_mod_cast Int.lt_add_one_of_le hw
  have hsn : sn < 4096 := by exact_mod_cast Int.lt_add_one_of_le hs
  have hN : encodeId (tn : Int) (dn : Int) (wn : Int) (sn : Int)
      = ((tn * 2 ^ 22 + dn * 2 ^ 17 + wn * 2 ^ 12 + sn : Nat) : Int) := by
    rw [henc]; push_cast; ring
  obtain ⟨f1, f2, f3, f4⟩ := nat_fields_of_pack (t := tn) hdn hwn hsn
  unfold decodeComponents
  rw [hN, MAX_DATACENTER_ID_eq, MAX_WORKER_ID_eq, MAX_SEQUENCE_eq,
    TIMESTAMP_SHIFT_eq, DATACENTER_SHIFT_eq, WORKER_SHIFT_eq]
  have g1 : ((tn * 2 ^ 22 + dn * 2 ^ 17 + wn * 2 ^ 12 + sn : Nat) : Int) >>> ((22 : Nat) : Int)
      = ((tn : Nat) : Int) := by
    rw [Int.shiftRight_coe_nat, f1]
  have g2 : Int.land
        (((tn * 2 ^ 22 + dn * 2 ^ 17 + wn * 2 ^ 12 + sn : Nat) : Int) >>> ((17 : Nat) : Int))
        ((31 : Nat) : Int) = ((dn : Nat) : Int) := by
    rw [Int.shiftRight_coe_nat, int_land_coe, f2]
  have g3 : Int.land
        (((tn * 2 ^ 22 + dn * 2 ^ 17 + wn * 2 ^ 12 + sn : Nat) : Int) >>> ((12 : Nat) : Int))
        ((31 : Nat) : Int) = ((wn : Nat) : Int) := by
    rw [Int.shiftRight_coe_nat, int_land_coe, f3]
  have g4 : Int.land ((tn * 2 ^ 22 + dn * 2 ^ 17 + wn * 2 ^ 12 + sn : Nat) : Int)
        ((4095 : Nat) : Int) = ((sn : Nat) : Int) := by
    rw [int_land_coe, f4]
  simp only [SnowflakeComponents.mk.injEq]
  refine ⟨?_, ?_, ?_, ?_, ?_⟩
  · rw [g1]; ring
  · exact g2
  · exact g3
  · exact g4
  · rw [g1]; ring

/-! Behavior of one call and of runs of calls. -/

theorem spinWait_some {last t : Int} {rest : List Int} :
    ∀ {clock : List Int}, spinWait last clock = some (t, rest) → last < t ∧ t ∈ clock := by
  intro clock
  induction clock with
  | nil => intro h; simp [spinWait] at h
  | cons c cs ih =>
    intro h
    rw [spinWait] at h
    by_cases hc : c ≤ last
    · rw [if_pos hc] at h
      obtain ⟨h1, h2⟩ := ih h
      exact ⟨h1, List.mem_cons_of_mem _ h2⟩
    · rw [if_neg hc] at h
      simp only [Option.some.injEq, Prod.mk.injEq] at h
      obtain ⟨rfl, rfl⟩ := h
      exact ⟨lt_of_not_le hc, List.mem_cons_self _ _⟩

theorem spinWait_first {last t2 : Int} {pre r2 : List Int}
    (hpre : ∀ x ∈ pre, x ≤ last) (ht2 : last < t2) :
    spinWait last (pre ++ t2 :: r2) = some (t2, r2) := by
  induction pre with
  | nil => rw [List.nil_append, spinWait, if_neg (not_le.mpr ht2)]
  | cons p ps ih =>
    rw [List.cons_append, spinWait, if_pos (hpre p (List.mem_cons_self _ _))]
    exact ih fun x hx => hpre x (List.mem_cons_of_mem _ hx)

theorem seq_update_eq (s : Nat) : (s + 1) &&& MAX_SEQUENCE = (s + 1) % 4096 := by
  rw [MAX_SEQUENCE_eq, show (4095 : Nat) = 2 ^ 12 - 1 by omega,
    Nat.and_pow_two_sub_one_eq_mod]

/-- Complete case analysis of one successful call: the id is the encoding of
the new state's fields, the sequence invariant is preserved, the new
`lastTimestamp` is one of the supplied clock readings, and either the tick
advanced (sequence reset to 0) or the same tick continued (sequence
incremented by one). -/
theorem snowflakeCall_ok {epoch d w : Int} {st st2 : GenState} {id : Int}
    {clock rest : List Int}
    (hseq : st.sequence ≤ 4095)
    (h : snowflakeCall epoch d w st clock = .ok (id, st2, rest)) :
    id = encodeId (st2.lastTimestamp - epoch) d w (st2.sequence : Int)
    ∧ st2.sequence ≤ 4095
    ∧ st2.lastTimestamp ∈ clock
    ∧ ((st.lastTimestamp < st2.lastTimestamp ∧ st2.sequence = 0)
       ∨ (st2.lastTimestamp = st.lastTimestamp ∧ st2.sequence = st.sequence + 1)) := by
  match clock with
  | [] => simp [snowflakeCall] at h
  | timestamp :: rest0 =>
    rw [snowflakeCall] at h
    by_cases h1 : timestamp < st.lastTimestamp
    · rw [if_pos h1] at h
      simp at h
    · rw [if_neg h1] at h
      by_cases h2 : timestamp = st.lastTimestamp
      · rw [if_pos h2] at h
        simp only [seq_update_eq] at h
        by_cases h3 : (st.sequence + 1) % 4096 = 0
        · rw [if_pos h3] at h
          cases hspin : spinWait st.lastTimestamp rest0 with
          | none => rw [hspin] at h; simp at h
          | some pr =>
            obtain ⟨t2, rest2⟩ := pr
            rw [hspin] at h
            simp only [Except.ok.injEq, Prod.mk.injEq] at h
            obtain ⟨hid, hst, hrest⟩ := h
            obtain ⟨hlt, hmem⟩ := spinWait_some hspin
            subst hst
            refine ⟨by rw [← hid, h3], by simp [h3], ?_, ?_⟩
            · exact List.mem_cons_of_mem _ hmem
            · left; exact ⟨hlt, by simp [h3]⟩
        · rw [if_neg h3] at h
          simp only [Except.ok.injEq, Prod.mk.injEq] at h
          obtain ⟨hid, hst, hrest⟩ := h
          subst hst
          have hs1 : (st.sequence + 1) % 4096 = st.sequence + 1 := by omega
          refine ⟨by rw [← hid, h2], by simp [hs1]; omega, ?_, ?_⟩
          · rw [h2]; exact List.mem_cons_self _ _
          · right; exact ⟨h2.symm ▸ rfl, by simp [hs1]⟩
      · rw [if_neg h2] at h
        simp only [Except.ok.injEq, Prod.mk.injEq] at h
        obtain ⟨hid, hst, hrest⟩ := h
        subst hst
        refine ⟨by rw [← hid], by simp, List.mem_cons_self _ _, ?_⟩
        left
        constructor
        · simp only []
          omega
        · rfl

theorem snowflakeCall_idValue_lt {epoch d w : Int} {st st2 : GenState} {id : Int}
    {clock rest : List Int}
    (hseq : st.sequence ≤ 4095)
    (h : snowflakeCall epoch d w st clock = .ok (id, st2, rest)) :
    idValue epoch d w st < idValue epoch d w st2 := by
  obtain ⟨-, -, -, hcase⟩ := snowflakeCall_ok hseq h
  unfold idValue
  rcases hcase with ⟨hlt, hz⟩ | ⟨heq, hsucc⟩
  · rw [hz]
    have : (st.sequence : Int) ≤ 4095 := by exact_mod_cast hseq
    have h22 : st.lastTimestamp + 1 ≤ st2.lastTimestamp := hlt
    nlinarith [h22]
  · rw [heq, hsucc]
    push_cast
    omega

theorem snowflakeCall_id_eq_idValue {epoch d w : Int} {st st2 : GenState} {id : Int}
    {clock rest : List Int}
    (hd0 : 0 ≤ d) (hd : d ≤ 31) (hw0 : 0 ≤ w) (hw : w ≤ 31)
    (hseq : st.sequence ≤ 4095)
    (h : snowflakeCall epoch d w st clock = .ok (id, st2, rest)) :
    id = idValue epoch d w st2 := by
  obtain ⟨hid, hseq2, -, -⟩ := snowflakeCall_ok hseq h
  rw [hid, encodeId_eq _ hd0 hd hw0 hw (by positivity) (by exact_mod_cast hseq2)]
  unfold idValue
  ring

/-- Invariant and strict growth along a successful run: the emitted ids,
prefixed with the packed value of the starting state, form a strictly
increasing chain, one id per call, and the sequence invariant is preserved. -/
theorem snowflakeRun_ok {epoch d w : Int}
    (hd0 : 0 ≤ d) (hd : d ≤ 31) (hw0 : 0 ≤ w) (hw : w ≤ 31) :
    ∀ {n : Nat} {st st2 : GenState} {clock rest : List Int} {ids : List Int},
    st.sequence ≤ 4095 →
    snowflakeRun epoch d w n st clock = .ok (ids, st2, rest) →
    ids.length = n ∧ List.Chain' (· < ·) (idValue epoch d w st :: ids)
      ∧ st2.sequence ≤ 4095 := by
  intro n
  induction n with
  | zero =>
    intro st st2 clock rest ids hseq h
    rw [snowflakeRun] at h
    simp only [Except.ok.injEq, Prod.mk.injEq] at h
    obtain ⟨rfl, rfl, rfl⟩ := h
    exact ⟨rfl, List.chain'_singleton _, hseq⟩
  | succ n ih =>
    intro st st2 clock rest ids hseq h
    rw [snowflakeRun] at h
    cases hcall : snowflakeCall epoch d w st clock with
    | error e => rw [hcall] at h; simp at h
    | ok out =>
      obtain ⟨id, stm, restm⟩ := out
      rw [hcall] at h
      dsimp only at h
      cases hrun : snowflakeRun epoch d w n stm restm with
      | error e => rw [hrun] at h; simp at h
      | ok out2 =>
        obtain ⟨ids2, st3, rest2⟩ := out2
        rw [hrun] at h
        simp only [Except.ok.injEq, Prod.mk.injEq] at h
        obtain ⟨rfl, rfl, rfl⟩ := h
        have hseqm : stm.sequence ≤ 4095 := (snowflakeCall_ok hseq hcall).2.1
        obtain ⟨hlen, hchain, hseq3⟩ := ih hseqm hrun
        have hidv : id = idValue epoch d w stm :=
          snowflakeCall_id_eq_idValue hd0 hd hw0 hw hseq hcall
        have hlt : idValue epoch d w st < idValue epoch d w stm :=
          snowflakeCall_idValue_lt hseq hcall
        refine ⟨by simp [hlen], ?_, hseq3⟩
        rw [List.chain'_cons]
        exact ⟨hidv ▸ hlt, hidv ▸ hchain⟩

theorem createSnowflake_ok {config : SnowflakeConfig} {g : Generator}
    (h : createSnowflake config = .ok g) :
    g.epoch = defaulted config.epoch DEFAULT_EPOCH
    ∧ 0 ≤ g.datacenterId ∧ g.datacenterId ≤ 31
    ∧ 0 ≤ g.workerId ∧ g.workerId ≤ 31
    ∧ g.state = { lastTimestamp := -1, sequence := 0 } := by
  have h31d : ((MAX_DATACENTER_ID : Nat) : Int) = 31 := by
    rw [MAX_DATACENTER_ID_eq]; norm_num
  have h31w : ((MAX_WORKER_ID : Nat) : Int) = 31 := by
    rw [MAX_WORKER_ID_eq]; norm_num
  simp only [createSnowflake, h31d, h31w] at h
  by_cases h1 : defaulted config.datacenterId 0 < 0 ∨ defaulted config.datacenterId 0 > 31
  · rw [if_pos h1] at h
    simp at h
  · rw [if_neg h1] at h
    by_cases h2 : defaulted config.workerId 0 < 0 ∨ defaulted config.workerId 0 > 31
    · rw [if_pos h2] at h
      simp at h
    · rw [if_neg h2] at h
      simp only [Except.ok.injEq] at h
      subst h
      refine ⟨rfl, ?_, ?_, ?_, ?_, rfl⟩ <;> (dsimp only; omega)

/-- C2: for a single generator instance (as constructed by `createSnowflake`)
and any clock trace under which every call succeeds, N sequential calls to the
generator yield N pairwise-distinct identifiers; the statement covers every
successful run, including traces repeating one millisecond reading more than
4096 times, which force the spin-wait path. -/
theorem generate_distinct {config : SnowflakeConfig} {g : Generator}
    {n : Nat} {clock rest : List Int} {ids : List Int} {st2 : GenState}
    (hg : createSnowflake config = .ok g)
    (h : snowflakeRun g.epoch g.datacenterId g.workerId n g.state clock
      = .ok (ids, st2, rest)) :
    ids.length = n ∧ ids.Nodup := by
  obtain ⟨-, hd0, hd, hw0, hw, hst⟩ := createSnowflake_ok hg
  have hseq : g.state.sequence ≤ 4095 := by rw [hst]; norm_num
  obtain ⟨hlen, hchain, -⟩ := snowflakeRun_ok hd0 hd hw0 hw hseq h
  refine ⟨hlen, ?_⟩
  have hpair : ids.Pairwise (· < ·) := List.chain'_iff_pairwise.mp hchain.tail
  exact hpair.imp ne_of_lt

/-- C3: for a single generator instance, across any successful run the emitted
identifiers are non-decreasing (indeed strictly increasing) in emission
order. -/
theorem generate_monotonic {config : SnowflakeConfig} {g : Generator}
    {n : Nat} {clock rest : List Int} {ids : List Int} {st2 : GenState}
    (hg : createSnowflake config = .ok g)
    (h : snowflakeRun g.epoch g.datacenterId g.workerId n g.state clock
      = .ok (ids, st2, rest)) :
    List.Chain' (· ≤ ·) ids := by
  obtain ⟨-, hd0, hd, hw0, hw, hst⟩ := createSnowflake_ok hg
  have hseq : g.state.sequence ≤ 4095 := by rw [hst]; norm_num
  obtain ⟨-, hchain, -⟩ := snowflakeRun_ok hd0 hd hw0 hw hseq h
  exact hchain.tail.imp fun a b hab => le_of_lt hab

theorem snowflakeCall_gt (epoch d w : Int) (st : GenState) (t : Int) (rest : List Int)
    (hlt : st.lastTimestamp < t) :
    snowflakeCall epoch d w st (t :: rest)
      = .ok (encodeId (t - epoch) d w ((0 : Nat) : Int),
          { lastTimestamp := t, sequence := 0 }, rest) := by
  simp only [snowflakeCall]
  rw [if_neg (not_lt.mpr (le_of_lt hlt)), if_neg (ne_of_gt hlt)]

/-- C4: when the clock reading equals `lastTimestamp`, the sequence is
incremented modulo 4096; if the increment does not wrap the call succeeds at
the same tick with the incremented sequence, and exactly when it wraps to 0
the call busy-waits, skipping readings that have not passed `lastTimestamp`,
resumes at the first strictly greater reading with sequence 0, and never
surfaces a clock-regression (or any other) error from this path; when the
reading is strictly greater than `lastTimestamp`, the sequence is reset
to 0. -/
theorem same_millisecond_spec (epoch d w : Int) (st : GenState) (t : Int)
    (rest : List Int) (hseq : st.sequence ≤ 4095) :
    (t = st.lastTimestamp → st.sequence < 4095 →
      snowflakeCall epoch d w st (t :: rest)
        = .ok (encodeId (t - epoch) d w ((st.sequence + 1 : Nat) : Int),
            { lastTimestamp := t, sequence := st.sequence + 1 }, rest))
    ∧ (t = st.lastTimestamp → st.sequence = 4095 →
        (∀ msg, snowflakeCall epoch d w st (t :: rest)
            ≠ .error (.clockRegressionError msg))
        ∧ (∀ pre t2 r2, rest = pre ++ t2 :: r2 → (∀ x ∈ pre, x ≤ st.lastTimestamp) →
            st.lastTimestamp < t2 →
            snowflakeCall epoch d w st (t :: rest)
              = .ok (encodeId (t2 - epoch) d w ((0 : Nat) : Int),
                  { lastTimestamp := t2, sequence := 0 }, r2)))
    ∧ (st.lastTimestamp < t →
        snowflakeCall epoch d w st (t :: rest)
          = .ok (encodeId (t - epoch) d w ((0 : Nat) : Int),
              { lastTimestamp := t, sequence := 0 }, rest)) := by
  refine ⟨?_, ?_, ?_⟩
  · intro ht hlt
    subst ht
    simp only [snowflakeCall, seq_update_eq, lt_self_iff_false, if_false, if_true]
    rw [if_neg (show ¬(st.sequence + 1) % 4096 = 0 by omega)]
    have h5 : (st.sequence + 1) % 4096 = st.sequence + 1 := by omega
    rw [h5]
  · intro ht hs
    subst ht
    have hwrap : (st.sequence + 1) % 4096 = 0 := by omega
    constructor
    · intro msg
      simp only [snowflakeCall, seq_update_eq, lt_self_iff_false, if_false, if_true]
      rw [if_pos hwrap]
      cases hspin : spinWait st.lastTimestamp rest with
      | none => simp
      | some pr =>
        obtain ⟨t2, r2⟩ := pr
        simp
    · intro pre t2 r2 hrest hpre ht2
      subst hrest
      simp only [snowflakeCall, seq_update_eq, lt_self_iff_false, if_false, if_true]
      rw [if_pos hwrap, spinWait_first hpre ht2]
      dsimp only
      rw [hwrap]
  · exact snowflakeCall_gt epoch d w st t rest

/-- C5: a call fails with the clock-regression error exactly when the clock
reading taken at the start of the call is strictly below the stored
`lastTimestamp`; in that case the error is the immediate result of the call
(no correction or retry happens), and no other code path produces this
error. -/
theorem clock_regression_iff (epoch d w : Int) (st : GenState) (t : Int)
    (rest : List Int) :
    snowflakeCall epoch d w st (t :: rest)
      = .error (.clockRegressionError "Clock moved backwards. Refusing to generate id")
    ↔ t < st.lastTimestamp := by
  constructor
  · intro h
    by_contra hlt
    simp only [snowflakeCall, seq_update_eq] at h
    rw [if_neg hlt] at h
    by_cases h2 : t = st.lastTimestamp
    · rw [if_pos h2] at h
      by_cases h3 : (st.sequence + 1) % 4096 = 0
      · rw [if_pos h3] at h
        cases hspin : spinWait st.lastTimestamp rest with
        | none => rw [hspin] at h; simp at h
        | some pr => rw [hspin] at h; simp at h
      · rw [if_neg h3] at h
        simp at h
    · rw [if_neg h2] at h
      simp at h
  · intro h
    simp only [snowflakeCall]
    rw [if_pos h]

/-- C6: construction fails with a configuration error naming the offending
field and the range 0..31 exactly when the destructured datacenter id or
worker id lies outside [0, 31] (datacenter id checked first); on success the
generator captures the destructured configuration and starts from
`lastTimestamp = -1`, `sequence = 0`. -/
theorem createSnowflake_spec (config : SnowflakeConfig) :
    ((defaulted config.datacenterId 0 < 0 ∨ 31 < defaulted config.datacenterId 0) →
      createSnowflake config
        = .error (.configurationError "Datacenter ID must be between 0 and 31"))
    ∧ (0 ≤ defaulted config.datacenterId 0 → defaulted config.datacenterId 0 ≤ 31 →
        (defaulted config.workerId 0 < 0 ∨ 31 < defaulted config.workerId 0) →
        createSnowflake config
          = .error (.configurationError "Worker ID must be between 0 and 31"))
    ∧ (0 ≤ defaulted config.datacenterId 0 → defaulted config.datacenterId 0 ≤ 31 →
        0 ≤ defaulted config.workerId 0 → defaulted config.workerId 0 ≤ 31 →
        createSnowflake config
          = .ok { epoch := defaulted config.epoch DEFAULT_EPOCH,
                  datacenterId := defaulted config.datacenterId 0,
                  workerId := defaulted config.workerId 0,
                  state := { lastTimestamp := -1, sequence := 0 } }) := by
  have h31d : ((MAX_DATACENTER_ID : Nat) : Int) = 31 := by
    rw [MAX_DATACENTER_ID_eq]; norm_num
  have h31w : ((MAX_WORKER_ID : Nat) : Int) = 31 := by
    rw [MAX_WORKER_ID_eq]; norm_num
  refine ⟨?_, ?_, ?_⟩
  · intro hbad
    simp only [createSnowflake, h31d, h31w]
    rw [if_pos (by omega)]
    rfl
  · intro hd0 hd hbad
    simp only [createSnowflake, h31d, h31w]
    rw [if_neg (by omega), if_pos (by omega)]
    rfl
  · intro hd0 hd hw0 hw
    simp only [createSnowflake, h31d, h31w]
    rw [if_neg (by omega), if_neg (by omega)]

/-- C7 (amended): in a call that succeeds, the timestamp offset handed to the
encoding step is `newLastTimestamp - epoch`; it is non-negative and fits in
41 bits provided every supplied clock reading `r` satisfies
`epoch ≤ r < epoch + 2^41`.  Construction itself does not constrain `epoch`
against the clock, so without that proviso the offset can be negative (see
the counterexample). -/
theorem offset_in_range (epoch d w : Int) (st st2 : GenState) (id : Int)
    (clock rest : List Int)
    (hseq : st.sequence ≤ 4095)
    (hclock : ∀ r ∈ clock, epoch ≤ r ∧ r < epoch + 2 ^ 41)
    (h : snowflakeCall epoch d w st clock = .ok (id, st2, rest)) :
    0 ≤ st2.lastTimestamp - epoch ∧ st2.lastTimestamp - epoch < 2 ^ 41
    ∧ id = encodeId (st2.lastTimestamp - epoch) d w (st2.sequence : Int) := by
  obtain ⟨hid, -, hmem, -⟩ := snowflakeCall_ok hseq h
  obtain ⟨hr1, hr2⟩ := hclock _ hmem
  exact ⟨by omega, by omega, hid⟩

/-- C7 (counterexample): construction accepts an epoch in the clock's future
(epoch 1 with clock reading 0), and the resulting generator's first successful
call hands the negative offset `0 - 1 = -1` to the encoding step. -/
theorem offset_negative_counterexample :
    createSnowflake { epoch := some (some 1), datacenterId := none, workerId := none }
      = .ok { epoch := 1, datacenterId := 0, workerId := 0,
              state := { lastTimestamp := -1, sequence := 0 } }
    ∧ snowflakeCall 1 0 0 { lastTimestamp := -1, sequence := 0 } [0]
      = .ok (encodeId (0 - 1) 0 0 ((0 : Nat) : Int),
          { lastTimestamp := 0, sequence := 0 }, [])
    ∧ (0 : Int) - 1 < 0 := by
  refine ⟨rfl, rfl, by norm_num⟩

theorem ldiff_4095 (m : Nat) : Nat.ldiff 4095 m = 4095 - m % 4096 := by
  apply Nat.eq_of_testBit_eq
  intro j
  rw [Nat.testBit_ldiff]
  have hm : m % 4096 < 2 ^ 12 := by omega
  rw [show (4095 : Nat) - m % 4096 = 2 ^ 12 - (m % 4096 + 1) by omega,
    Nat.testBit_two_pow_sub_succ hm,
    show (4095 : Nat) = 2 ^ 12 - 1 by norm_num, Nat.testBit_two_pow_sub_one,
    show (4096 : Nat) = 2 ^ 12 by norm_num, Nat.testBit_mod_two_pow]
  by_cases hj : j < 12 <;> simp [hj]

theorem int_land_4095 (X : Int) : Int.land X (((4095 : Nat) : Int)) = X % 4096 := by
  cases X with
  | ofNat x =>
    have h1 : Int.land (Int.ofNat x) ((4095 : Nat) : Int) = ((x &&& 4095 : Nat) : Int) := rfl
    rw [h1, show (4095 : Nat) = 2 ^ 12 - 1 by norm_num, Nat.and_pow_two_sub_one_eq_mod,
      Int.ofNat_eq_natCast]
    omega
  | negSucc m =>
    have h1 : Int.land (Int.negSucc m) ((4095 : Nat) : Int) = ((Nat.ldiff 4095 m : Nat) : Int) :=
      rfl
    rw [h1, ldiff_4095, Int.negSucc_eq]
    omega

/-- C10: every identifier produced by the one-shot `generateSnowflakeId` has
sequence field 0, because each call constructs a fresh generator
(`lastTimestamp = -1`, `sequence = 0`) and invokes it once; consequently two
one-shot calls with the same configuration whose clock readings fall in the
same millisecond return the identical identifier string. -/
theorem oneShot_sequence_zero {config : SnowflakeConfig} {g : Generator}
    (t : Int) (rest rest2 : List Int)
    (ht : 0 ≤ t) (hg : createSnowflake config = .ok g) :
    generateSnowflakeId config (t :: rest)
      = .ok (toString (encodeId (t - g.epoch) g.datacenterId g.workerId ((0 : Nat) : Int)))
    ∧ (decodeComponents
        (encodeId (t - g.epoch) g.datacenterId g.workerId ((0 : Nat) : Int)) g.epoch).sequence
      = 0
    ∧ generateSnowflakeId config (t :: rest) = generateSnowflakeId config (t :: rest2) := by
  obtain ⟨-, hd0, hd, hw0, hw, hst⟩ := createSnowflake_ok hg
  have hlt : g.state.lastTimestamp < t := by rw [hst]; dsimp only; omega
  have hcall : ∀ r : List Int,
      snowflakeCall g.epoch g.datacenterId g.workerId g.state (t :: r)
        = .ok (encodeId (t - g.epoch) g.datacenterId g.workerId ((0 : Nat) : Int),
            { lastTimestamp := t, sequence := 0 }, r) :=
    fun r => snowflakeCall_gt g.epoch g.datacenterId g.workerId g.state t r hlt
  have hgen : ∀ r : List Int, generateSnowflakeId config (t :: r)
      = .ok (toString (encodeId (t - g.epoch) g.datacenterId g.workerId ((0 : Nat) : Int))) := by
    intro r
    simp only [generateSnowflakeId]
    rw [hg]
    dsimp only
    rw [hcall r]
  refine ⟨hgen rest, ?_, (hgen rest).trans (hgen rest2).symm⟩
  simp only [decodeComponents]
  rw [MAX_SEQUENCE_eq, int_land_4095,
    encodeId_eq _ hd0 hd hw0 hw (by norm_num) (by norm_num)]
  push_cast
  omega

/-! Closed-input witnesses for the hypothesized claim theorems. -/

theorem decode_encode_roundTrip_witness :
    decodeComponents (encodeId 123 5 10 7) 1577836800000
      = { timestamp := 1577836800000 + 123, datacenterId := 5, workerId := 10,
          sequence := 7, date := 1577836800000 + 123 } :=
  decode_encode_roundTrip 1577836800000 123 5 10 7 (by norm_num) (by norm_num)
    (by norm_num) (by norm_num) (by norm_num) (by norm_num) (by norm_num) (by norm_num)

theorem generate_distinct_witness :
    ([(419569664 : Int), 419569665, 423763968] : List Int).length = 3
    ∧ ([(419569664 : Int), 419569665, 423763968] : List Int).Nodup :=
  generate_distinct
    (show createSnowflake
        { epoch := some (some 0), datacenterId := some (some 1), workerId := some (some 2) }
        = .ok { epoch := 0, datacenterId := 1, workerId := 2,
                state := { lastTimestamp := -1, sequence := 0 } } from rfl)
    (show snowflakeRun 0 1 2 3 { lastTimestamp := -1, sequence := 0 } [100, 100, 101]
        = .ok ([419569664, 419569665, 423763968],
            { lastTimestamp := 101, sequence := 0 }, []) from rfl)

theorem generate_monotonic_witness :
    List.Chain' (· ≤ ·) ([(419569664 : Int), 419569665, 423763968] : List Int) :=
  generate_monotonic
    (show createSnowflake
        { epoch := some (some 0), datacenterId := some (some 1), workerId := some (some 2) }
        = .ok { epoch := 0, datacenterId := 1, workerId := 2,
                state := { lastTimestamp := -1, sequence := 0 } } from rfl)
    (show snowflakeRun 0 1 2 3 { lastTimestamp := -1, sequence := 0 } [100, 100, 101]
        = .ok ([419569664, 419569665, 423763968],
            { lastTimestamp := 101, sequence := 0 }, []) from rfl)

theorem same_millisecond_witness :
    snowflakeCall 0 1 2 { lastTimestamp := 5, sequence := 3 } [5, 9]
      = .ok (encodeId (5 - 0) 1 2 ((3 + 1 : Nat) : Int),
          { lastTimestamp := 5, sequence := 3 + 1 }, [9])
    ∧ snowflakeCall 0 1 2 { lastTimestamp := 5, sequence := 4095 } [5, 4, 9, 12]
      = .ok (encodeId (9 - 0) 1 2 ((0 : Nat) : Int),
          { lastTimestamp := 9, sequence := 0 }, [12])
    ∧ snowflakeCall 0 1 2 { lastTimestamp := 5, sequence := 7 } [6, 9]
      = .ok (encodeId (6 - 0) 1 2 ((0 : Nat) : Int),
          { lastTimestamp := 6, sequence := 0 }, [9]) := by
  refine ⟨?_, ?_, ?_⟩
  · exact (same_millisecond_spec 0 1 2 { lastTimestamp := 5, sequence := 3 } 5 [9]
      (by norm_num)).1 rfl (by norm_num)
  · exact ((same_millisecond_spec 0 1 2 { lastTimestamp := 5, sequence := 4095 } 5 [4, 9, 12]
      (by norm_num)).2.1 rfl rfl).2 [4] 9 [12] rfl
      (by intro x hx; simp at hx; subst hx; decide) (by norm_num)
  · exact (same_millisecond_spec 0 1 2 { lastTimestamp := 5, sequence := 7 } 6 [9]
      (by norm_num)).2.2 (by norm_num)

theorem range_enforcement_witness :
    createSnowflake { epoch := none, datacenterId := some (some (-1)), workerId := none }
      = .error (.configurationError "Datacenter ID must be between 0 and 31")
    ∧ createSnowflake { epoch := none, datacenterId := some (some 32), workerId := none }
      = .error (.configurationError "Datacenter ID must be between 0 and 31")
    ∧ createSnowflake { epoch := none, datacenterId := none, workerId := some (some (-1)) }
      = .error (.configurationError "Worker ID must be between 0 and 31")
    ∧ createSnowflake { epoch := none, datacenterId := none, workerId := some (some 32) }
      = .error (.configurationError "Worker ID must be between 0 and 31")
    ∧ createSnowflake { epoch := none, datacenterId := some (some 0), workerId := some (some 31) }
      = .ok { epoch := DEFAULT_EPOCH, datacenterId := 0, workerId := 31,
              state := { lastTimestamp := -1, sequence := 0 } }
    ∧ createSnowflake { epoch := none, datacenterId := some (some 31), workerId := some (some 0) }
      = .ok { epoch := DEFAULT_EPOCH, datacenterId := 31, workerId := 0,
              state := { lastTimestamp := -1, sequence := 0 } } := by
  refine ⟨?_, ?_, ?_, ?_, ?_, ?_⟩
  · exact (createSnowflake_spec _).1 (by decide)
  · exact (createSnowflake_spec _).1 (by decide)
  · exact (createSnowflake_spec _).2.1 (by decide) (by decide) (by decide)
  · exact (createSnowflake_spec _).2.1 (by decide) (by decide) (by decide)
  · exact (createSnowflake_spec _).2.2 (by decide) (by decide) (by decide) (by decide)
  · exact (createSnowflake_spec _).2.2 (by decide) (by decide) (by decide) (by decide)

theorem offset_in_range_witness :
    0 ≤ (105 : Int) - 100 ∧ (105 : Int) - 100 < 2 ^ 41
    ∧ encodeId (105 - 100) 1 2 ((0 : Nat) : Int)
        = encodeId ((105 : Int) - 100) 1 2 (((0 : Nat) : Nat) : Int) :=
  offset_in_range 100 1 2 { lastTimestamp := -1, sequence := 0 }
    { lastTimestamp := 105, sequence := 0 }
    (encodeId (105 - 100) 1 2 ((0 : Nat) : Int)) [105] []
    (by norm_num)
    (by intro r hr; simp at hr; subst hr; norm_num)
    rfl

theorem oneShot_sequence_zero_witness :
    generateSnowflakeId
        { epoch := some (some 0), datacenterId := some (some 3), workerId := some (some 4) }
        [7]
      = .ok (toString (encodeId ((7 : Int) - 0) 3 4 ((0 : Nat) : Int)))
    ∧ (decodeComponents (encodeId ((7 : Int) - 0) 3 4 ((0 : Nat) : Int)) 0).sequence = 0
    ∧ generateSnowflakeId
        { epoch := some (some 0), datacenterId := some (some 3), workerId := some (some 4) }
        [7]
      = generateSnowflakeId
        { epoch := some (some 0), datacenterId := some (some 3), workerId := some (some 4) }
        [7, 99] :=
  oneShot_sequence_zero 7 [] [99] (by norm_num)
    (show createSnowflake
        { epoch := some (some 0), datacenterId := some (some 3), workerId := some (some 4) }
        = .ok { epoch := 0, datacenterId := 3, workerId := 4,
                state := { lastTimestamp := -1, sequence := 0 } } from rfl)

/-- C8: for every input string on which the `BigInt` conversion fails
(a non-numeric string), `parseSnowflakeId` and likewise
`getSnowflakeTimestamp` fail fast — the error propagates before any
component structure is built — rather than returning a well-formed but
wrong decomposition. -/
theorem malformed_input_fails (s : String) (epoch : Int)
    (h : jsBigIntOfString s = none) :
    parseSnowflakeId s epoch = none ∧ getSnowflakeTimestamp s epoch = none := by
  unfold parseSnowflakeId getSnowflakeTimestamp
  rw [h]
  exact ⟨rfl, rfl⟩

theorem malformed_input_fails_witness :
    jsBigIntOfString "abc" = none
    ∧ parseSnowflakeId "abc" 1577836800000 = none
    ∧ getSnowflakeTimestamp "abc" 1577836800000 = none := by
  have h : jsBigIntOfString "abc" = none := by decide
  exact ⟨h, (malformed_input_fails "abc" 1577836800000 h).1,
    (malformed_input_fails "abc" 1577836800000 h).2⟩

/-- C9 (evaluation at the failing input): with localStorage available but
holding no keys, no caller overrides, and fingerprint-derived values
datacenterId 7 and workerId 9, the storage adapter builds a generator with
datacenterId 0 and workerId 0 — the library defaults, not the
fingerprint-derived values: `loadConfigFromStorage` stores `undefined` under
both keys and the spread copies those entries over the fingerprint values,
contrary to the documented precedence. -/
theorem storage_merge_drops_fingerprint :
    createSnowflakeFromStorage (some fun _ => none)
        { epoch := none, datacenterId := none, workerId := none } 7 9
      = .ok { epoch := DEFAULT_EPOCH, datacenterId := 0, workerId := 0,
              state := { lastTimestamp := -1, sequence := 0 } }
    ∧ (7 : Int) ≠ 0 ∧ (9 : Int) ≠ 0 :=
  ⟨rfl, by norm_num, by norm_num⟩

end Snowflake
